import Mathlib

/-!
Verification development for the `atomicgo.dev/service` HTTP service scaffold.

The Go package wraps an application's handlers with production concerns:
a Prometheus-style metrics collector with a dynamic registry (metrics.go,
`MetricsCollector`), a health checker wrapping the hellofresh/health-go
library (health.go, `HealthChecker`), a middleware chain (middleware.go),
and a service lifecycle with two listeners and graceful shutdown
(service.go, shutdown.go).

This file shallowly embeds those parts of the code.  Go strings are
modelled as `List Char`, Go float64 metric values as `ℚ` (the claims under
study only use exact bookkeeping: increments, set, and counting
observations, never float rounding), Go maps keyed by strings as
association lists, and fallible Go functions as `Except`-returning Lean
functions.  A Go `panic` escaping a function is modelled explicitly where
it matters (label-arity panics, handler panics).
-/

namespace ServiceSpec

/-- Go strings, modelled as their character sequences. -/
abbrev GoStr := List Char

/-- `strings.HasPrefix s pre` from the Go standard library. -/
def hasPrefix (s pre : GoStr) : Bool := pre.isPrefixOf s

/-- The `"_"` separator used when prefixing metric names. -/
def usep : GoStr := ['_']

/-- Lookup in an association list (model of reading a Go map). -/
def alookup {κ α : Type} [DecidableEq κ] (k : κ) : List (κ × α) → Option α
  | [] => none
  | (k₂, v) :: rest => if k = k₂ then some v else alookup k rest

/-- Update an association list at a key, appending if absent
(model of a Go map write). -/
def aset {κ α : Type} [DecidableEq κ] (k : κ) (v : α) : List (κ × α) → List (κ × α)
  | [] => [(k, v)]
  | (k₂, v₂) :: rest => if k = k₂ then (k, v) :: rest else (k₂, v₂) :: aset k v rest

/-- `strconv.Itoa` for the status codes recorded by the metrics middleware. -/
def itoa (n : Nat) : GoStr := Nat.toDigits 10 n

/-! ## Metrics collector (metrics.go, current version: src/unnamed/part_004)

`MetricsCollector` owns a private Prometheus registry, three built-in HTTP
metrics registered into it at construction, and four maps of custom
metrics keyed by prefixed name.  The Prometheus registry itself is
modelled by the list of metric names it holds: `Registry.Register` in
prometheus/client_golang fails whenever a collector with the same
fully-qualified name is already registered (either as a duplicate-name
error or as an `AlreadyRegisteredError`), which is all the embedded code
observes, since every error from it is surfaced as a failed registration.
-/

/-- The four metric kinds of the registry. -/
inductive MetricKind where
  | counter
  | gauge
  | histogram
  | summary
deriving DecidableEq

/-- Errors of the metric API.  `alreadyExists k n` models
`fmt.Errorf("<kind> %s already exists", n)`, `registerConflict` models
`fmt.Errorf("failed to register <kind> %s: %w", n, err)`, `notFound`
models `fmt.Errorf("<kind> %s not found", n)`, and `labelArityPanic`
models the Go panic raised by `WithLabelValues` when the number of label
values differs from the registered label names. -/
inductive MetricErr where
  | alreadyExists (kind : MetricKind) (name : GoStr)
  | registerConflict (kind : MetricKind) (name : GoStr)
  | notFound (kind : MetricKind) (name : GoStr)
  | labelArityPanic (kind : MetricKind) (name : GoStr)
deriving DecidableEq

/-- A `prometheus.CounterVec`: label names fixed at registration, series
keyed by label-value tuples.  `WithLabelValues` materialises an absent
series at 0 before mutating it. -/
structure CounterVec where
  labelNames : List GoStr
  series : List (List GoStr × ℚ)
deriving DecidableEq

/-- A `prometheus.GaugeVec`. -/
structure GaugeVec where
  labelNames : List GoStr
  series : List (List GoStr × ℚ)
deriving DecidableEq

/-- A `prometheus.HistogramVec`; each series keeps its observations. -/
structure HistogramVec where
  labelNames : List GoStr
  buckets : List ℚ
  series : List (List GoStr × List ℚ)
deriving DecidableEq

/-- A `prometheus.SummaryVec`; each series keeps its observations. -/
structure SummaryVec where
  labelNames : List GoStr
  objectives : List (ℚ × ℚ)
  series : List (List GoStr × List ℚ)
deriving DecidableEq

/-- Add `v` to the series at label tuple `ls`, creating it when absent. -/
def seriesAdd (s : List (List GoStr × ℚ)) (ls : List GoStr) (v : ℚ) :
    List (List GoStr × ℚ) :=
  match alookup ls s with
  | some old => aset ls (old + v) s
  | none => s ++ [(ls, v)]

/-- Set the series at label tuple `ls` to `v`, creating it when absent. -/
def seriesSet (s : List (List GoStr × ℚ)) (ls : List GoStr) (v : ℚ) :
    List (List GoStr × ℚ) :=
  match alookup ls s with
  | some _ => aset ls v s
  | none => s ++ [(ls, v)]

/-- Record one observation `v` on the series at label tuple `ls`. -/
def seriesObserve (s : List (List GoStr × List ℚ)) (ls : List GoStr) (v : ℚ) :
    List (List GoStr × List ℚ) :=
  match alookup ls s with
  | some obs => aset ls (obs ++ [v]) s
  | none => s ++ [(ls, [v])]

/-- `MetricConfig` from metrics.go. -/
structure MetricConfig where
  Name : GoStr
  Help : GoStr
  Labels : List GoStr
  Buckets : List ℚ
  Objectives : List (ℚ × ℚ)
deriving DecidableEq

/-- The three built-in metric name suffixes. -/
def bareRequestsTotal : GoStr := ("http_requests_total").data

/-- Bare name of the built-in duration histogram. -/
def bareRequestDuration : GoStr := ("http_request_duration_seconds").data

/-- Bare name of the built-in in-flight gauge. -/
def bareRequestsInFlight : GoStr := ("http_requests_in_flight").data

/-- `serviceName + "_http_requests_total"`. -/
def requestsTotalName (sn : GoStr) : GoStr := sn ++ usep ++ bareRequestsTotal

/-- `serviceName + "_http_request_duration_seconds"`. -/
def requestDurationName (sn : GoStr) : GoStr := sn ++ usep ++ bareRequestDuration

/-- `serviceName + "_http_requests_in_flight"`. -/
def requestsInFlightName (sn : GoStr) : GoStr := sn ++ usep ++ bareRequestsInFlight

/-- The three names registered into the private registry at construction. -/
def builtinNames (sn : GoStr) : List GoStr :=
  [requestsTotalName sn, requestDurationName sn, requestsInFlightName sn]

/-- `MetricsCollector` from metrics.go.  `registryNames` is the set of
metric names held by the private `prometheus.Registry`; the three
built-in HTTP metrics live in their own fields, outside the four custom
maps. -/
structure MetricsCollector where
  serviceName : GoStr
  registryNames : List GoStr
  httpRequestsTotal : CounterVec
  httpRequestDuration : HistogramVec
  httpRequestsInFlight : ℚ
  counters : List (GoStr × CounterVec)
  gauges : List (GoStr × GaugeVec)
  histograms : List (GoStr × HistogramVec)
  summaries : List (GoStr × SummaryVec)
deriving DecidableEq

/-- `prometheus.DefBuckets`, used when a histogram config gives none. -/
def DefBuckets : List ℚ :=
  [5/1000, 1/100, 1/40, 1/20, 1/10, 1/4, 1/2, 1, 5/2, 5, 10]

/-- Default summary objectives from `RegisterSummary`. -/
def defaultObjectives : List (ℚ × ℚ) :=
  [(1/2, 1/20), (9/10, 1/100), (99/100, 1/1000)]

/-- `NewMetricsCollector` from metrics.go: fresh registry, empty custom
maps, built-in HTTP metrics created and registered. -/
def NewMetricsCollector (sn : GoStr) : MetricsCollector where
  serviceName := sn
  registryNames := builtinNames sn
  httpRequestsTotal :=
    { labelNames := [("method").data, ("endpoint").data, ("status_code").data]
      series := [] }
  httpRequestDuration :=
    { labelNames := [("method").data, ("endpoint").data, ("status_code").data]
      buckets := DefBuckets
      series := [] }
  httpRequestsInFlight := 0
  counters := []
  gauges := []
  histograms := []
  summaries := []

/-- `ensureMetricNamePrefix` from metrics.go: prepend `serviceName + "_"`
unless the name already starts with it. -/
def ensureMetricNamePrefix (sn name : GoStr) : GoStr :=
  if hasPrefix name (sn ++ usep) then name else sn ++ usep ++ name

/-- `Registry.Register` of the private Prometheus registry: fails when a
metric with the same fully-qualified name is already held. -/
def registryRegister (names : List GoStr) (n : GoStr) : Except Unit (List GoStr) :=
  if n ∈ names then .error () else .ok (names ++ [n])

/-- `MetricsCollector.RegisterCounter`. -/
def RegisterCounter (mc : MetricsCollector) (config : MetricConfig) :
    Except MetricErr MetricsCollector :=
  let pn := ensureMetricNamePrefix mc.serviceName config.Name
  match alookup pn mc.counters with
  | some _ => .error (.alreadyExists .counter pn)
  | none =>
    match registryRegister mc.registryNames pn with
    | .error _ => .error (.registerConflict .counter pn)
    | .ok names =>
      .ok { mc with
              registryNames := names
              counters := mc.counters ++ [(pn, { labelNames := config.Labels, series := [] })] }

/-- `MetricsCollector.RegisterGauge`. -/
def RegisterGauge (mc : MetricsCollector) (config : MetricConfig) :
    Except MetricErr MetricsCollector :=
  let pn := ensureMetricNamePrefix mc.serviceName config.Name
  match alookup pn mc.gauges with
  | some _ => .error (.alreadyExists .gauge pn)
  | none =>
    match registryRegister mc.registryNames pn with
    | .error _ => .error (.registerConflict .gauge pn)
    | .ok names =>
      .ok { mc with
              registryNames := names
              gauges := mc.gauges ++ [(pn, { labelNames := config.Labels, series := [] })] }

/-- `MetricsCollector.RegisterHistogram` (empty bucket list falls back to
`prometheus.DefBuckets`). -/
def RegisterHistogram (mc : MetricsCollector) (config : MetricConfig) :
    Except MetricErr MetricsCollector :=
  let pn := ensureMetricNamePrefix mc.serviceName config.Name
  match alookup pn mc.histograms with
  | some _ => .error (.alreadyExists .histogram pn)
  | none =>
    match registryRegister mc.registryNames pn with
    | .error _ => .error (.registerConflict .histogram pn)
    | .ok names =>
      let buckets := if config.Buckets = [] then DefBuckets else config.Buckets
      .ok { mc with
              registryNames := names
              histograms := mc.histograms ++
                [(pn, { labelNames := config.Labels, buckets := buckets, series := [] })] }

/-- `MetricsCollector.RegisterSummary` (empty objectives fall back to the
default quantile map). -/
def RegisterSummary (mc : MetricsCollector) (config : MetricConfig) :
    Except MetricErr MetricsCollector :=
  let pn := ensureMetricNamePrefix mc.serviceName config.Name
  match alookup pn mc.summaries with
  | some _ => .error (.alreadyExists .summary pn)
  | none =>
    match registryRegister mc.registryNames pn with
    | .error _ => .error (.registerConflict .summary pn)
    | .ok names =>
      let objectives := if config.Objectives = [] then defaultObjectives else config.Objectives
      .ok { mc with
              registryNames := names
              summaries := mc.summaries ++
                [(pn, { labelNames := config.Labels, objectives := objectives, series := [] })] }

/-- `MetricsCollector.IncCounter`. -/
def IncCounter (mc : MetricsCollector) (name : GoStr) (labels : List GoStr) :
    Except MetricErr MetricsCollector :=
  let pn := ensureMetricNamePrefix mc.serviceName name
  match alookup pn mc.counters with
  | none => .error (.notFound .counter pn)
  | some cv =>
    if labels.length = cv.labelNames.length then
      .ok { mc with
              counters := aset pn { cv with series := seriesAdd cv.series labels 1 } mc.counters }
    else .error (.labelArityPanic .counter pn)

/-- `MetricsCollector.AddCounter`. -/
def AddCounter (mc : MetricsCollector) (name : GoStr) (value : ℚ) (labels : List GoStr) :
    Except MetricErr MetricsCollector :=
  let pn := ensureMetricNamePrefix mc.serviceName name
  match alookup pn mc.counters with
  | none => .error (.notFound .counter pn)
  | some cv =>
    if labels.length = cv.labelNames.length then
      .ok { mc with
              counters := aset pn { cv with series := seriesAdd cv.series labels value } mc.counters }
    else .error (.labelArityPanic .counter pn)

/-- `MetricsCollector.SetGauge`. -/
def SetGauge (mc : MetricsCollector) (name : GoStr) (value : ℚ) (labels : List GoStr) :
    Except MetricErr MetricsCollector :=
  let pn := ensureMetricNamePrefix mc.serviceName name
  match alookup pn mc.gauges with
  | none => .error (.notFound .gauge pn)
  | some gv =>
    if labels.length = gv.labelNames.length then
      .ok { mc with
              gauges := aset pn { gv with series := seriesSet gv.series labels value } mc.gauges }
    else .error (.labelArityPanic .gauge pn)

/-- `MetricsCollector.IncGauge`. -/
def IncGauge (mc : MetricsCollector) (name : GoStr) (labels : List GoStr) :
    Except MetricErr MetricsCollector :=
  let pn := ensureMetricNamePrefix mc.serviceName name
  match alookup pn mc.gauges with
  | none => .error (.notFound .gauge pn)
  | some gv =>
    if labels.length = gv.labelNames.length then
      .ok { mc with
              gauges := aset pn { gv with series := seriesAdd gv.series labels 1 } mc.gauges }
    else .error (.labelArityPanic .gauge pn)

/-- `MetricsCollector.DecGauge`. -/
def DecGauge (mc : MetricsCollector) (name : GoStr) (labels : List GoStr) :
    Except MetricErr MetricsCollector :=
  let pn := ensureMetricNamePrefix mc.serviceName name
  match alookup pn mc.gauges with
  | none => .error (.notFound .gauge pn)
  | some gv =>
    if labels.length = gv.labelNames.length then
      .ok { mc with
              gauges := aset pn { gv with series := seriesAdd gv.series labels (-1) } mc.gauges }
    else .error (.labelArityPanic .gauge pn)

/-- `MetricsCollector.AddGauge`. -/
def AddGauge (mc : MetricsCollector) (name : GoStr) (value : ℚ) (labels : List GoStr) :
    Except MetricErr MetricsCollector :=
  let pn := ensureMetricNamePrefix mc.serviceName name
  match alookup pn mc.gauges with
  | none => .error (.notFound .gauge pn)
  | some gv =>
    if labels.length = gv.labelNames.length then
      .ok { mc with
              gauges := aset pn { gv with series := seriesAdd gv.series labels value } mc.gauges }
    else .error (.labelArityPanic .gauge pn)

/-- `MetricsCollector.ObserveHistogram`. -/
def ObserveHistogram (mc : MetricsCollector) (name : GoStr) (value : ℚ) (labels : List GoStr) :
    Except MetricErr MetricsCollector :=
  let pn := ensureMetricNamePrefix mc.serviceName name
  match alookup pn mc.histograms with
  | none => .error (.notFound .histogram pn)
  | some hv =>
    if labels.length = hv.labelNames.length then
      .ok { mc with
              histograms := aset pn { hv with series := seriesObserve hv.series labels value } mc.histograms }
    else .error (.labelArityPanic .histogram pn)

/-- `MetricsCollector.ObserveSummary`. -/
def ObserveSummary (mc : MetricsCollector) (name : GoStr) (value : ℚ) (labels : List GoStr) :
    Except MetricErr MetricsCollector :=
  let pn := ensureMetricNamePrefix mc.serviceName name
  match alookup pn mc.summaries with
  | none => .error (.notFound .summary pn)
  | some sv =>
    if labels.length = sv.labelNames.length then
      .ok { mc with
              summaries := aset pn { sv with series := seriesObserve sv.series labels value } mc.summaries }
    else .error (.labelArityPanic .summary pn)

/-- Collector states reachable through the public metric API: the
constructor plus every successful registration or mutation. -/
inductive Reachable (sn : GoStr) : MetricsCollector → Prop where
  | new : Reachable sn (NewMetricsCollector sn)
  | regCounter {mc mc₂ : MetricsCollector} {cfg : MetricConfig} :
      Reachable sn mc → RegisterCounter mc cfg = .ok mc₂ → Reachable sn mc₂
  | regGauge {mc mc₂ : MetricsCollector} {cfg : MetricConfig} :
      Reachable sn mc → RegisterGauge mc cfg = .ok mc₂ → Reachable sn mc₂
  | regHistogram {mc mc₂ : MetricsCollector} {cfg : MetricConfig} :
      Reachable sn mc → RegisterHistogram mc cfg = .ok mc₂ → Reachable sn mc₂
  | regSummary {mc mc₂ : MetricsCollector} {cfg : MetricConfig} :
      Reachable sn mc → RegisterSummary mc cfg = .ok mc₂ → Reachable sn mc₂
  | incCounter {mc mc₂ : MetricsCollector} {n : GoStr} {ls : List GoStr} :
      Reachable sn mc → IncCounter mc n ls = .ok mc₂ → Reachable sn mc₂
  | addCounter {mc mc₂ : MetricsCollector} {n : GoStr} {v : ℚ} {ls : List GoStr} :
      Reachable sn mc → AddCounter mc n v ls = .ok mc₂ → Reachable sn mc₂
  | setGauge {mc mc₂ : MetricsCollector} {n : GoStr} {v : ℚ} {ls : List GoStr} :
      Reachable sn mc → SetGauge mc n v ls = .ok mc₂ → Reachable sn mc₂
  | incGauge {mc mc₂ : MetricsCollector} {n : GoStr} {ls : List GoStr} :
      Reachable sn mc → IncGauge mc n ls = .ok mc₂ → Reachable sn mc₂
  | decGauge {mc mc₂ : MetricsCollector} {n : GoStr} {ls : List GoStr} :
      Reachable sn mc → DecGauge mc n ls = .ok mc₂ → Reachable sn mc₂
  | addGauge {mc mc₂ : MetricsCollector} {n : GoStr} {v : ℚ} {ls : List GoStr} :
      Reachable sn mc → AddGauge mc n v ls = .ok mc₂ → Reachable sn mc₂
  | observeHistogram {mc mc₂ : MetricsCollector} {n : GoStr} {v : ℚ} {ls : List GoStr} :
      Reachable sn mc → ObserveHistogram mc n v ls = .ok mc₂ → Reachable sn mc₂
  | observeSummary {mc mc₂ : MetricsCollector} {n : GoStr} {v : ℚ} {ls : List GoStr} :
      Reachable sn mc → ObserveSummary mc n v ls = .ok mc₂ → Reachable sn mc₂

/-- The invariant behind C10: the built-in HTTP metric names are held by
the private registry (so user registrations of those names fail) and are
keys of none of the four custom-metric maps (so name-based mutations of
those names fail). -/
def BuiltinApart (sn : GoStr) (mc : MetricsCollector) : Prop :=
  mc.serviceName = sn
  ∧ (∀ bn ∈ builtinNames sn, bn ∈ mc.registryNames)
  ∧ (∀ bn ∈ builtinNames sn,
      alookup bn mc.counters = none ∧ alookup bn mc.gauges = none
      ∧ alookup bn mc.histograms = none ∧ alookup bn mc.summaries = none)

/-! ## Middleware chain (middleware.go, metrics.go)

A handler runs sequentially on one request: it may write to the response
writer, update the shared metrics collector and log list, and may panic.
`HResult.panicked = true` means the call unwound with a panic that the
caller still sees.  The response writer records the status actually put
on the wire (`net/http` honours only the first `WriteHeader`) and the
`captured` field of the `responseWriter` wrapper that the metrics
middleware installs around it (updated on every `WriteHeader`,
initialised to 200).  Request-context injection (`context.WithValue`
under `LoggerKey` / `MetricsKey` / `HealthCheckerKey`) is modelled by
three booleans on the request.  Wall-clock time is not modelled; the
duration the metrics middleware would measure for the request is the
oracle field `World.elapsedSeconds`.
-/

/-- The request context values injected by middleware. -/
structure ReqCtx where
  hasLogger : Bool
  hasMetrics : Bool
  hasHealth : Bool
deriving DecidableEq

/-- An HTTP request as the middleware chain sees it. -/
structure Request where
  method : GoStr
  path : GoStr
  ctx : ReqCtx
deriving DecidableEq

/-- Response writer state: `wireStatus` is the status sent to the client
(first `WriteHeader` wins), `captured` the wrapper's `statusCode` field. -/
structure RespWriter where
  wireStatus : Option Nat
  captured : Nat
  body : GoStr
deriving DecidableEq

/-- Shared mutable state a handler can reach: the service's metrics
collector, the log output, and the duration oracle. -/
structure World where
  mc : MetricsCollector
  logs : List GoStr
  elapsedSeconds : ℚ
deriving DecidableEq

/-- Outcome of running a handler. -/
structure HResult where
  w : RespWriter
  world : World
  panicked : Bool
deriving DecidableEq

/-- `http.Handler` (sequential model). -/
def Handler := Request → RespWriter → World → HResult

/-- `Middleware` from middleware.go: a handler transformer. -/
def Middleware := Handler → Handler

/-- `ResponseWriter.WriteHeader` through the metrics wrapper: the wrapper
records every code, the underlying writer honours only the first. -/
def writeHeader (w : RespWriter) (code : Nat) : RespWriter :=
  { w with
      captured := code
      wireStatus := match w.wireStatus with | none => some code | some c => some c }

/-- `ResponseWriter.Write`: an implicit `WriteHeader 200` if none was sent. -/
def writeBody (w : RespWriter) (b : GoStr) : RespWriter :=
  let w₂ := match w.wireStatus with | none => writeHeader w 200 | some _ => w
  { w₂ with body := w₂.body ++ b }

/-- `http.Error(w, msg, code)`: status, then message plus newline. -/
def httpError (w : RespWriter) (msg : GoStr) (code : Nat) : RespWriter :=
  writeBody (writeHeader w code) (msg ++ ['\n'])

/-- `LoggerMiddleware` from middleware.go: put the logger into the
request context and call the next handler. -/
def LoggerMiddleware : Middleware := fun next r w wo =>
  next { r with ctx := { r.ctx with hasLogger := true } } w wo

/-- `HealthCheckerMiddleware`: put the health checker into the request
context and call the next handler. -/
def HealthCheckerMiddleware : Middleware := fun next r w wo =>
  next { r with ctx := { r.ctx with hasHealth := true } } w wo

/-- `RequestLoggingMiddleware` from middleware.go: log the incoming
request, then call the next handler. -/
def RequestLoggingMiddleware : Middleware := fun next r w wo =>
  next r w { wo with logs := wo.logs ++ [("incoming request ").data ++ r.method ++ r.path] }

/-- `RecoveryMiddleware` from middleware.go: run the next handler; if it
panics, log the panic and turn it into a 500 response, never propagating
the panic further. -/
def RecoveryMiddleware : Middleware := fun next r w wo =>
  let res := next r w wo
  if res.panicked then
    { w := httpError res.w (("Internal Server Error").data) 500
      world := { res.world with
                   logs := res.world.logs ++ [("panic recovered ").data ++ r.method ++ r.path] }
      panicked := false }
  else res

/-- `MetricsMiddleware` from metrics.go: put the collector into the
context, increment the in-flight gauge with a deferred decrement (so the
decrement also runs when the inner handler panics), wrap the writer to
capture the status code (default 200), run the inner handler, and — only
when it returned normally — record the request counter and the duration
histogram once, labelled with method, path and the captured status code. -/
def MetricsMiddleware : Middleware := fun next r w wo =>
  let r₂ := { r with ctx := { r.ctx with hasMetrics := true } }
  let wo₂ := { wo with
                 mc := { wo.mc with httpRequestsInFlight := wo.mc.httpRequestsInFlight + 1 } }
  let w₂ := { w with captured := 200 }
  let res := next r₂ w₂ wo₂
  let world := { res.world with
                   mc := { res.world.mc with
                             httpRequestsInFlight := res.world.mc.httpRequestsInFlight - 1 } }
  if res.panicked then
    { w := res.w, world := world, panicked := true }
  else
    let sc := itoa res.w.captured
    let mc := world.mc
    let mc₂ := { mc with
                   httpRequestsTotal := { mc.httpRequestsTotal with
                     series := seriesAdd mc.httpRequestsTotal.series [r.method, r.path, sc] 1 } }
    let mc₃ := { mc₂ with
                   httpRequestDuration := { mc₂.httpRequestDuration with
                     series := seriesObserve mc₂.httpRequestDuration.series [r.method, r.path, sc]
                       wo.elapsedSeconds } }
    { w := res.w, world := { world with mc := mc₃ }, panicked := false }

/-- `applyMiddleware` from middleware.go: `for i := len-1; i >= 0; i--`
rewraps the handler, so the first middleware in the slice ends outermost. -/
def applyMiddleware (h : Handler) (middlewares : List Middleware) : Handler :=
  middlewares.foldr (fun m acc => m acc) h

/-- The default middleware slice built by `New` (service.go) when the
health checker was created: metrics, logger, recovery, request logging,
then the health-checker injector. -/
def defaultMiddlewares : List Middleware :=
  [MetricsMiddleware, LoggerMiddleware, RecoveryMiddleware,
   RequestLoggingMiddleware, HealthCheckerMiddleware]

/-! ## Health checker (health.go: src/unnamed/part_002, and the
hellofresh/health-go v5 dependency)

The repository wraps `github.com/hellofresh/health-go/v5`.  The
dependency is pinned (v5.5.5) but its source is not part of the
repository, so its registration and measurement semantics are embedded
here from its published behaviour: `Health.Register` rejects an empty
name and a duplicate name with an error and otherwise stores the config;
`Health.Measure` evaluates every check under its own timeout and folds
statuses with `getAvailability` — a failing check with `SkipOnErr` set
degrades the overall status to "Partially Available" unless it is
already "Unavailable", and a failing check without `SkipOnErr` makes it
"Unavailable".  Wall-clock time is abstracted: the `ok` field of a check
states whether its function returns nil within its timeout during the
evaluation under study (a timeout counts as a failure, as in the
library). -/

/-- One registered health check: hellofresh `health.Config` plus the
abstract outcome of running it. -/
structure HCheck where
  name : GoStr
  timeoutSeconds : ℚ
  skipOnErr : Bool
  ok : Bool
deriving DecidableEq

/-- hellofresh health statuses (`StatusOK`, `StatusPartiallyAvailable`,
`StatusUnavailable`). -/
inductive HStatus where
  | statusOK
  | partlyAvailable
  | unavailable
deriving DecidableEq

/-- `getAvailability` from hellofresh/health-go v5. -/
def getAvailability (s : HStatus) (skipOnErr : Bool) : HStatus :=
  if skipOnErr ∧ s ≠ .unavailable then .partlyAvailable else .unavailable

/-- The wrapped `health.Health` instance: its registered checks. -/
structure Health where
  checks : List HCheck
deriving DecidableEq

/-- `Health.Register` of hellofresh/health-go v5: empty names and
duplicate names are rejected with an error; otherwise the check is
stored.  Nothing is overwritten on the error paths. -/
def healthRegister (h : Health) (c : HCheck) : Except GoStr Health :=
  if c.name = [] then
    .error (("health check must have a name to be registered").data)
  else if c.name ∈ h.checks.map HCheck.name then
    .error (("health check is already registered: ").data ++ c.name)
  else
    .ok { h with checks := h.checks ++ [c] }

/-- The overall status computed by `Health.Measure`: fold
`getAvailability` over the failing checks. -/
def measureStatus (checks : List HCheck) : HStatus :=
  checks.foldl (fun s c => if c.ok then s else getAvailability s c.skipOnErr) .statusOK

/-- `HealthChecker` from health.go, wrapping the library instance. -/
structure HealthChecker where
  checker : Health
deriving DecidableEq

/-- Modelled from the spec: the current `HealthChecker.Register` is not
under src/ (src/unnamed/part_002 holds a stale variant whose `Register`
returns nothing, which cannot compile against `Service.RegisterHealthCheck`
in service.go, which returns its result); the spec gives
`Register(spec) -> Result<(), AlreadyExists>`, forwarding the library's
registration error to the caller. -/
def HealthCheckerRegister (hc : HealthChecker) (c : HCheck) : Except GoStr HealthChecker :=
  match healthRegister hc.checker c with
  | .error e => .error e
  | .ok h => .ok { hc with checker := h }

/-- `HealthChecker.IsHealthy` from health.go: measure and compare the
overall status against `StatusOK`. -/
def IsHealthy (hc : HealthChecker) : Bool :=
  measureStatus hc.checker.checks = .statusOK

/-- `HealthChecker.IsReady` from health.go: same as `IsHealthy`. -/
def IsReady (hc : HealthChecker) : Bool := IsHealthy hc

/-- `HealthChecker.IsAlive` from health.go: always true. -/
def IsAlive (_hc : HealthChecker) : Bool := true

/-! ## Lifecycle and graceful shutdown (service.go, shutdown.go)

`Service.Start` launches the metrics listener and the primary listener,
then blocks on a `select` over the signal channel and the server-error
channel.  On a signal it runs `gracefulShutdown` and returns its result;
on a listener error it returns that error at once, without running
`gracefulShutdown`.  `gracefulShutdown` runs every shutdown hook in
registration order (a hook error is logged and does not stop the loop),
then calls `Shutdown` on the primary server and then on the metrics
server — each attempted whenever the handle exists, regardless of the
other's outcome — and returns the first shutdown error, if any.

Hooks are modelled as data (an id and whether the call returns an
error); listener `Shutdown` results are part of the server handle.  The
trace records every observable side effect in order. -/

/-- A registered shutdown hook: its identity and the result of calling it. -/
structure Hook where
  id : Nat
  fails : Bool
deriving DecidableEq

/-- An `*http.Server` handle, with the result its `Shutdown(ctx)` call
would produce under the configured deadline (`none` = clean shutdown). -/
structure ServerH where
  shutdownErr : Option GoStr
deriving DecidableEq

/-- The two listeners. -/
inductive ListenerId where
  | mainListener
  | metricsListener
deriving DecidableEq

/-- The part of `Service` that the lifecycle reads: the two server
handles (nil until started) and `Config.ShutdownHooks`. -/
structure ServiceState where
  server : Option ServerH
  metricsServer : Option ServerH
  hooks : List Hook
deriving DecidableEq

/-- Observable outcome of `gracefulShutdown`. -/
structure ShutdownTrace where
  hooksRun : List Nat
  hookFailures : List Nat
  attempted : List ListenerId
  result : Option GoStr
deriving DecidableEq

/-- `Service.AddShutdownHook`: append to `Config.ShutdownHooks`. -/
def AddShutdownHook (st : ServiceState) (h : Hook) : ServiceState :=
  { st with hooks := st.hooks ++ [h] }

/-- The hook loop of `gracefulShutdown`: every hook runs in slice order;
a failing hook is logged and the loop continues. -/
def runHooks (hooks : List Hook) : List Nat × List Nat :=
  (hooks.map Hook.id, (hooks.filter Hook.fails).map Hook.id)

/-- `Service.gracefulShutdown` from shutdown.go. -/
def gracefulShutdown (st : ServiceState) : ShutdownTrace :=
  let ranPair := runHooks st.hooks
  let mainAttempt : List ListenerId :=
    match st.server with | some _ => [.mainListener] | none => []
  let mainErrs : List GoStr :=
    match st.server with
    | some s => (match s.shutdownErr with | some e => [e] | none => [])
    | none => []
  let metricsAttempt : List ListenerId :=
    match st.metricsServer with | some _ => [.metricsListener] | none => []
  let metricsErrs : List GoStr :=
    match st.metricsServer with
    | some s => (match s.shutdownErr with | some e => [e] | none => [])
    | none => []
  { hooksRun := ranPair.1
    hookFailures := ranPair.2
    attempted := mainAttempt ++ metricsAttempt
    result := (mainErrs ++ metricsErrs).head? }

/-- The event `Service.Start` unblocks on: an OS termination signal, or a
non-`ErrServerClosed` error from one of the listener goroutines. -/
inductive StartTrigger where
  | signal
  | mainServerError (e : GoStr)
  | metricsServerError (e : GoStr)
deriving DecidableEq

/-- Observable outcome of `Service.Start` after the blocking `select`. -/
structure StartOutcome where
  result : Option GoStr
  shutdown : Option ShutdownTrace
deriving DecidableEq

/-- `Service.Start` from service.go, from the `select` on: a signal leads
to `gracefulShutdown`; a server error is returned immediately and
`gracefulShutdown` never runs. -/
def Start (st : ServiceState) (trigger : StartTrigger) : StartOutcome :=
  match trigger with
  | .signal =>
    let t := gracefulShutdown st
    { result := t.result, shutdown := some t }
  | .mainServerError e => { result := some e, shutdown := none }
  | .metricsServerError e => { result := some e, shutdown := none }

/-- The property claimed for `Start`: by the time it returns, the
shutdown of every listener that exists has been attempted. -/
def bothListenersStopped (st : ServiceState) (o : StartOutcome) : Prop :=
  ∃ t, o.shutdown = some t ∧
    ((st.server).isSome → ListenerId.mainListener ∈ t.attempted) ∧
    ((st.metricsServer).isSome → ListenerId.metricsListener ∈ t.attempted)

/-- Read a counter/gauge series value, 0 when the series was never touched. -/
def counterValue (cv : CounterVec) (ls : List GoStr) : ℚ :=
  (alookup ls cv.series).getD 0

/-- Number of recorded observations of one histogram series. -/
def histObsCount (hv : HistogramVec) (ls : List GoStr) : Nat :=
  ((alookup ls hv.series).getD []).length

/-- `Except` success test. -/
def isOkE {ε α : Type} : Except ε α → Bool
  | .ok _ => true
  | .error _ => false

/-! ## Sample inputs used by the concrete witnesses -/

/-- A fresh collector for the service name `test`. -/
def sampleCollector : MetricsCollector := NewMetricsCollector (("test").data)

/-- A custom counter/gauge/histogram/summary config named `jobs` with one label. -/
def sampleCfg : MetricConfig :=
  { Name := ("jobs").data, Help := ("jobs processed").data
    Labels := [("kind").data], Buckets := [], Objectives := [] }

/-- `sampleCollector` after a successful counter registration of `sampleCfg`. -/
def sampleAfterCounter : MetricsCollector :=
  (RegisterCounter sampleCollector sampleCfg).toOption.getD sampleCollector

/-- `sampleCollector` after a successful gauge registration of `sampleCfg`. -/
def sampleAfterGauge : MetricsCollector :=
  (RegisterGauge sampleCollector sampleCfg).toOption.getD sampleCollector

/-- `sampleCollector` after a successful histogram registration of `sampleCfg`. -/
def sampleAfterHistogram : MetricsCollector :=
  (RegisterHistogram sampleCollector sampleCfg).toOption.getD sampleCollector

/-- `sampleCollector` after a successful summary registration of `sampleCfg`. -/
def sampleAfterSummary : MetricsCollector :=
  (RegisterSummary sampleCollector sampleCfg).toOption.getD sampleCollector

/-- A user handler that panics at once, as in the repository's own
recovery test (`panic("test panic")`). -/
def panickingHandler : Handler := fun _ w wo => { w := w, world := wo, panicked := true }

/-- A GET request for `/hello` with an empty context. -/
def sampleRequest : Request :=
  { method := ("GET").data, path := ("/hello").data
    ctx := { hasLogger := false, hasMetrics := false, hasHealth := false } }

/-- A fresh response writer. -/
def emptyWriter : RespWriter := { wireStatus := none, captured := 0, body := [] }

/-- A world holding a fresh collector, no logs, and a 0-second duration
oracle. -/
def sampleWorld : World :=
  { mc := NewMetricsCollector (("test").data), logs := [], elapsedSeconds := 0 }

/-- Three hooks in registration order, the middle one failing — the
spec's shutdown-completeness scenario. -/
def threeHooks : List Hook :=
  [{ id := 1, fails := false }, { id := 2, fails := true }, { id := 3, fails := false }]

/-- A running service: both listeners up, the three sample hooks. -/
def sampleLifecycle : ServiceState :=
  { server := some { shutdownErr := none }
    metricsServer := some { shutdownErr := none }
    hooks := threeHooks }

/-- A service whose listener shutdowns both fail. -/
def failingShutdownState : ServiceState :=
  { server := some { shutdownErr := some (("context deadline exceeded").data) }
    metricsServer := some { shutdownErr := some (("use of closed network connection").data) }
    hooks := [] }

/-- A listener bind failure, as `ListenAndServe` reports it. -/
def bindError : GoStr := ("listen tcp :8080: bind: address already in use").data

/-- A registered probe named `database`, critical and passing. -/
def dupProbe : HCheck :=
  { name := ("database").data, timeoutSeconds := 5, skipOnErr := false, ok := true }

/-- A checker already holding `dupProbe`. -/
def oneProbeChecker : HealthChecker := { checker := { checks := [dupProbe] } }

/-- A checker with a passing critical probe and a failing advisory probe. -/
def mixedChecker : HealthChecker :=
  { checker := { checks :=
      [{ name := ("database").data, timeoutSeconds := 2, skipOnErr := false, ok := true },
       { name := ("cache").data, timeoutSeconds := 2, skipOnErr := true, ok := false }] } }

/-! ## Helper lemmas -/

theorem hasPrefix_append_self (p n : GoStr) : hasPrefix (p ++ n) p = true := by
  simp [hasPrefix, List.isPrefixOf_iff_prefix]

theorem alookup_append {κ α : Type} [DecidableEq κ] (k : κ) (l₁ l₂ : List (κ × α)) :
    alookup k (l₁ ++ l₂) =
      match alookup k l₁ with
      | some v => some v
      | none => alookup k l₂ := by
  induction l₁ with
  | nil => simp [alookup]
  | cons p rest ih =>
    obtain ⟨k₂, v⟩ := p
    by_cases h : k = k₂ <;> simp [alookup, h, ih]

theorem alookup_aset_self {κ α : Type} [DecidableEq κ] (k : κ) (v : α) (l : List (κ × α)) :
    alookup k (aset k v l) = some v := by
  induction l with
  | nil => simp [aset, alookup]
  | cons p rest ih =>
    obtain ⟨k₂, v₂⟩ := p
    by_cases h : k = k₂ <;> simp [aset, alookup, h, ih]

theorem alookup_aset_ne {κ α : Type} [DecidableEq κ] {k k₂ : κ} (v : α) (l : List (κ × α))
    (hne : k ≠ k₂) : alookup k (aset k₂ v l) = alookup k l := by
  induction l with
  | nil => simp [aset, alookup, hne]
  | cons p rest ih =>
    obtain ⟨k₃, v₃⟩ := p
    by_cases h : k₂ = k₃
    · subst h
      simp [aset, alookup, hne]
    · by_cases h₂ : k = k₃ <;> simp [aset, alookup, h, h₂, ih]

theorem seriesAdd_value (s : List (List GoStr × ℚ)) (ls : List GoStr) (v : ℚ) :
    (alookup ls (seriesAdd s ls v)).getD 0 = (alookup ls s).getD 0 + v := by
  unfold seriesAdd
  cases h : alookup ls s with
  | some old => simp [h, alookup_aset_self]
  | none => simp [h, alookup_append, alookup]

theorem seriesAdd_other (s : List (List GoStr × ℚ)) (ls ls₂ : List GoStr) (v : ℚ)
    (hne : ls₂ ≠ ls) : alookup ls₂ (seriesAdd s ls v) = alookup ls₂ s := by
  unfold seriesAdd
  cases h : alookup ls s with
  | some old => simp [alookup_aset_ne _ _ hne]
  | none =>
    rw [alookup_append]
    cases h₂ : alookup ls₂ s <;> simp [alookup, hne]

theorem seriesObserve_count (s : List (List GoStr × List ℚ)) (ls : List GoStr) (v : ℚ) :
    ((alookup ls (seriesObserve s ls v)).getD []).length =
      ((alookup ls s).getD []).length + 1 := by
  unfold seriesObserve
  cases h : alookup ls s with
  | some obs => simp [h, alookup_aset_self]
  | none => simp [h, alookup_append, alookup]

theorem seriesObserve_other (s : List (List GoStr × List ℚ)) (ls ls₂ : List GoStr) (v : ℚ)
    (hne : ls₂ ≠ ls) : alookup ls₂ (seriesObserve s ls v) = alookup ls₂ s := by
  unfold seriesObserve
  cases h : alookup ls s with
  | some obs => simp [alookup_aset_ne _ _ hne]
  | none =>
    rw [alookup_append]
    cases h₂ : alookup ls₂ s <;> simp [alookup, hne]

theorem ensure_of_not_prefixed {sn n : GoStr} (h : hasPrefix n (sn ++ usep) = false) :
    ensureMetricNamePrefix sn n = sn ++ usep ++ n := by
  simp [ensureMetricNamePrefix, h]

theorem ensure_of_prefixed {sn n : GoStr} (h : hasPrefix n (sn ++ usep) = true) :
    ensureMetricNamePrefix sn n = n := by
  simp [ensureMetricNamePrefix, h]

theorem ensure_prefixed_form (sn n : GoStr) :
    ensureMetricNamePrefix sn (sn ++ usep ++ n) = sn ++ usep ++ n :=
  ensure_of_prefixed (hasPrefix_append_self (sn ++ usep) n)

theorem ensure_idem (sn n : GoStr) :
    ensureMetricNamePrefix sn (ensureMetricNamePrefix sn n) = ensureMetricNamePrefix sn n := by
  by_cases h : hasPrefix n (sn ++ usep) = true
  · rw [ensure_of_prefixed h, ensure_of_prefixed h]
  · have h₂ : hasPrefix n (sn ++ usep) = false := (Bool.not_eq_true _) ▸ h
    rw [ensure_of_not_prefixed h₂]
    exact ensure_prefixed_form sn n

theorem ensure_bare_eq_prefixed {sn n : GoStr} (h : hasPrefix n (sn ++ usep) = false) :
    ensureMetricNamePrefix sn (sn ++ usep ++ n) = ensureMetricNamePrefix sn n := by
  rw [ensure_prefixed_form, ensure_of_not_prefixed h]

/-- C8, claim theorem.  Conjuncts 1–3 are about the prefixing function
itself: idempotence at any name, identity at an already-prefixed name,
and agreement of the bare and prefixed forms of a bare name.  The
remaining conjuncts state that every registration and mutation operation
of the collector gives identical results for the bare name `n` and the
prefixed name `serviceName_n`. -/
theorem c8_prefixing_idempotent_and_interchangeable
    (mc : MetricsCollector) (n m : GoStr) (cfg : MetricConfig) (v : ℚ) (ls : List GoStr)
    (hbare : hasPrefix n (mc.serviceName ++ usep) = false)
    (hm : hasPrefix m (mc.serviceName ++ usep) = true) :
    ensureMetricNamePrefix mc.serviceName (ensureMetricNamePrefix mc.serviceName n) =
        ensureMetricNamePrefix mc.serviceName n
    ∧ ensureMetricNamePrefix mc.serviceName m = m
    ∧ ensureMetricNamePrefix mc.serviceName (mc.serviceName ++ usep ++ n) =
        ensureMetricNamePrefix mc.serviceName n
    ∧ RegisterCounter mc { cfg with Name := mc.serviceName ++ usep ++ n } =
        RegisterCounter mc { cfg with Name := n }
    ∧ RegisterGauge mc { cfg with Name := mc.serviceName ++ usep ++ n } =
        RegisterGauge mc { cfg with Name := n }
    ∧ RegisterHistogram mc { cfg with Name := mc.serviceName ++ usep ++ n } =
        RegisterHistogram mc { cfg with Name := n }
    ∧ RegisterSummary mc { cfg with Name := mc.serviceName ++ usep ++ n } =
        RegisterSummary mc { cfg with Name := n }
    ∧ IncCounter mc (mc.serviceName ++ usep ++ n) ls = IncCounter mc n ls
    ∧ AddCounter mc (mc.serviceName ++ usep ++ n) v ls = AddCounter mc n v ls
    ∧ SetGauge mc (mc.serviceName ++ usep ++ n) v ls = SetGauge mc n v ls
    ∧ IncGauge mc (mc.serviceName ++ usep ++ n) ls = IncGauge mc n ls
    ∧ DecGauge mc (mc.serviceName ++ usep ++ n) ls = DecGauge mc n ls
    ∧ AddGauge mc (mc.serviceName ++ usep ++ n) v ls = AddGauge mc n v ls
    ∧ ObserveHistogram mc (mc.serviceName ++ usep ++ n) v ls = ObserveHistogram mc n v ls
    ∧ ObserveSummary mc (mc.serviceName ++ usep ++ n) v ls = ObserveSummary mc n v ls := by
  refine ⟨ensure_idem _ _, ensure_of_prefixed hm, ensure_bare_eq_prefixed hbare,
    ?_, ?_, ?_, ?_, ?_, ?_, ?_, ?_, ?_, ?_, ?_, ?_⟩ <;>
    simp only [RegisterCounter, RegisterGauge, RegisterHistogram, RegisterSummary,
      IncCounter, AddCounter, SetGauge, IncGauge, DecGauge, AddGauge,
      ObserveHistogram, ObserveSummary, ensure_bare_eq_prefixed hbare]

/-- C8, witness: the service name `test`, the bare name `jobs` and the
already-prefixed name `test_x`. -/
theorem c8_witness :
    hasPrefix (("jobs").data) (sampleCollector.serviceName ++ usep) = false
    ∧ hasPrefix (("test_x").data) (sampleCollector.serviceName ++ usep) = true
    ∧ IncCounter sampleCollector (sampleCollector.serviceName ++ usep ++ ("jobs").data)
        [("a").data] = IncCounter sampleCollector (("jobs").data) [("a").data] :=
  ⟨by decide, by decide,
    (c8_prefixing_idempotent_and_interchangeable sampleCollector (("jobs").data)
      (("test_x").data) sampleCfg 1 [("a").data] (by decide) (by decide)).2.2.2.2.2.2.2.1⟩

theorem registerCounter_ok {mc mc₂ : MetricsCollector} {cfg : MetricConfig}
    (h : RegisterCounter mc cfg = .ok mc₂) :
    alookup (ensureMetricNamePrefix mc.serviceName cfg.Name) mc.counters = none
    ∧ ensureMetricNamePrefix mc.serviceName cfg.Name ∉ mc.registryNames
    ∧ mc₂ = { mc with
                registryNames :=
                  mc.registryNames ++ [ensureMetricNamePrefix mc.serviceName cfg.Name]
                counters := mc.counters ++
                  [(ensureMetricNamePrefix mc.serviceName cfg.Name,
                    { labelNames := cfg.Labels, series := [] })] } := by
  simp only [RegisterCounter, registryRegister] at h
  split at h
  · exact absurd h (by simp)
  · rename_i hl
    split at h
    · exact absurd h (by simp)
    · rename_i names heq
      by_cases hm : ensureMetricNamePrefix mc.serviceName cfg.Name ∈ mc.registryNames
      · exact absurd (if_pos hm ▸ heq) (by simp)
      · rw [if_neg hm] at heq
        simp only [Except.ok.injEq] at heq h
        exact ⟨hl, hm, by rw [← h, ← heq]⟩

theorem registerGauge_ok {mc mc₂ : MetricsCollector} {cfg : MetricConfig}
    (h : RegisterGauge mc cfg = .ok mc₂) :
    alookup (ensureMetricNamePrefix mc.serviceName cfg.Name) mc.gauges = none
    ∧ ensureMetricNamePrefix mc.serviceName cfg.Name ∉ mc.registryNames
    ∧ mc₂ = { mc with
                registryNames :=
                  mc.registryNames ++ [ensureMetricNamePrefix mc.serviceName cfg.Name]
                gauges := mc.gauges ++
                  [(ensureMetricNamePrefix mc.serviceName cfg.Name,
                    { labelNames := cfg.Labels, series := [] })] } := by
  simp only [RegisterGauge, registryRegister] at h
  split at h
  · exact absurd h (by simp)
  · rename_i hl
    split at h
    · exact absurd h (by simp)
    · rename_i names heq
      by_cases hm : ensureMetricNamePrefix mc.serviceName cfg.Name ∈ mc.registryNames
      · exact absurd (if_pos hm ▸ heq) (by simp)
      · rw [if_neg hm] at heq
        simp only [Except.ok.injEq] at heq h
        exact ⟨hl, hm, by rw [← h, ← heq]⟩

theorem registerHistogram_ok {mc mc₂ : MetricsCollector} {cfg : MetricConfig}
    (h : RegisterHistogram mc cfg = .ok mc₂) :
    alookup (ensureMetricNamePrefix mc.serviceName cfg.Name) mc.histograms = none
    ∧ ensureMetricNamePrefix mc.serviceName cfg.Name ∉ mc.registryNames
    ∧ mc₂ = { mc with
                registryNames :=
                  mc.registryNames ++ [ensureMetricNamePrefix mc.serviceName cfg.Name]
                histograms := mc.histograms ++
                  [(ensureMetricNamePrefix mc.serviceName cfg.Name,
                    { labelNames := cfg.Labels
                      buckets := if cfg.Buckets = [] then DefBuckets else cfg.Buckets
                      series := [] })] } := by
  simp only [RegisterHistogram, registryRegister] at h
  split at h
  · exact absurd h (by simp)
  · rename_i hl
    split at h
    · exact absurd h (by simp)
    · rename_i names heq
      by_cases hm : ensureMetricNamePrefix mc.serviceName cfg.Name ∈ mc.registryNames
      · exact absurd (if_pos hm ▸ heq) (by simp)
      · rw [if_neg hm] at heq
        simp only [Except.ok.injEq] at heq h
        exact ⟨hl, hm, by rw [← h, ← heq]⟩

theorem registerSummary_ok {mc mc₂ : MetricsCollector} {cfg : MetricConfig}
    (h : RegisterSummary mc cfg = .ok mc₂) :
    alookup (ensureMetricNamePrefix mc.serviceName cfg.Name) mc.summaries = none
    ∧ ensureMetricNamePrefix mc.serviceName cfg.Name ∉ mc.registryNames
    ∧ mc₂ = { mc with
                registryNames :=
                  mc.registryNames ++ [ensureMetricNamePrefix mc.serviceName cfg.Name]
                summaries := mc.summaries ++
                  [(ensureMetricNamePrefix mc.serviceName cfg.Name,
                    { labelNames := cfg.Labels
                      objectives :=
                        if cfg.Objectives = [] then defaultObjectives else cfg.Objectives
                      series := [] })] } := by
  simp only [RegisterSummary, registryRegister] at h
  split at h
  · exact absurd h (by simp)
  · rename_i hl
    split at h
    · exact absurd h (by simp)
    · rename_i names heq
      by_cases hm : ensureMetricNamePrefix mc.serviceName cfg.Name ∈ mc.registryNames
      · exact absurd (if_pos hm ▸ heq) (by simp)
      · rw [if_neg hm] at heq
        simp only [Except.ok.injEq] at heq h
        exact ⟨hl, hm, by rw [← h, ← heq]⟩

/-- C3, claim theorem.  From any collector state: when a counter, gauge,
histogram and summary registration of `cfg` succeeds, a second
registration of the same prefixed name and kind fails with the
`already exists` error, while the first metric is still registered with
its label set and untouched (empty) series and can still be mutated
through the name-based API.  The failed registration returns before any
mutation in the Go code, which the `Except` embedding renders as: an
error result carries no successor state at all. -/
theorem c3_duplicate_registration_rejected
    (mc mc₁c mc₁g mc₁h mc₁s : MetricsCollector) (cfg cfg₂ : MetricConfig)
    (ls : List GoStr) (v : ℚ)
    (hname : ensureMetricNamePrefix mc.serviceName cfg₂.Name =
             ensureMetricNamePrefix mc.serviceName cfg.Name)
    (hlen : ls.length = cfg.Labels.length)
    (hrc : RegisterCounter mc cfg = .ok mc₁c)
    (hrg : RegisterGauge mc cfg = .ok mc₁g)
    (hrh : RegisterHistogram mc cfg = .ok mc₁h)
    (hrs : RegisterSummary mc cfg = .ok mc₁s) :
    (RegisterCounter mc₁c cfg₂ =
        .error (.alreadyExists .counter (ensureMetricNamePrefix mc.serviceName cfg.Name))
      ∧ alookup (ensureMetricNamePrefix mc.serviceName cfg.Name) mc₁c.counters =
          some { labelNames := cfg.Labels, series := [] }
      ∧ isOkE (IncCounter mc₁c cfg.Name ls) = true)
    ∧ (RegisterGauge mc₁g cfg₂ =
        .error (.alreadyExists .gauge (ensureMetricNamePrefix mc.serviceName cfg.Name))
      ∧ alookup (ensureMetricNamePrefix mc.serviceName cfg.Name) mc₁g.gauges =
          some { labelNames := cfg.Labels, series := [] }
      ∧ isOkE (SetGauge mc₁g cfg.Name v ls) = true)
    ∧ (RegisterHistogram mc₁h cfg₂ =
        .error (.alreadyExists .histogram (ensureMetricNamePrefix mc.serviceName cfg.Name))
      ∧ isOkE (ObserveHistogram mc₁h cfg.Name v ls) = true)
    ∧ (RegisterSummary mc₁s cfg₂ =
        .error (.alreadyExists .summary (ensureMetricNamePrefix mc.serviceName cfg.Name))
      ∧ isOkE (ObserveSummary mc₁s cfg.Name v ls) = true) := by
  obtain ⟨hlc, hmc, hec⟩ := registerCounter_ok hrc
  obtain ⟨hlg, hmg, heg⟩ := registerGauge_ok hrg
  obtain ⟨hlh, hmh, heh⟩ := registerHistogram_ok hrh
  obtain ⟨hls, hms, hes⟩ := registerSummary_ok hrs
  subst hec heg heh hes
  refine ⟨⟨?_, ?_, ?_⟩, ⟨?_, ?_, ?_⟩, ⟨?_, ?_⟩, ⟨?_, ?_⟩⟩ <;>
    simp [RegisterCounter, RegisterGauge, RegisterHistogram, RegisterSummary,
      IncCounter, SetGauge, ObserveHistogram, ObserveSummary,
      hname, alookup_append, hlc, hlg, hlh, hls, alookup, hlen, isOkE]

/-- C3, witness: the four registrations of `sampleCfg` on a fresh
collector succeed, and re-registering the same config is rejected while
the first registration stays usable. -/
theorem c3_witness :
    RegisterCounter sampleAfterCounter sampleCfg =
        .error (.alreadyExists .counter
          (ensureMetricNamePrefix sampleCollector.serviceName sampleCfg.Name))
      ∧ alookup (ensureMetricNamePrefix sampleCollector.serviceName sampleCfg.Name)
          sampleAfterCounter.counters =
          some { labelNames := sampleCfg.Labels, series := [] }
      ∧ isOkE (IncCounter sampleAfterCounter sampleCfg.Name [("a").data]) = true :=
  (c3_duplicate_registration_rejected sampleCollector sampleAfterCounter sampleAfterGauge
    sampleAfterHistogram sampleAfterSummary sampleCfg sampleCfg [("a").data] 1
    rfl (by decide) (by rfl) (by rfl) (by rfl) (by rfl)).1

theorem alookup_aset_none {κ α : Type} [DecidableEq κ] {l : List (κ × α)} {bn pn : κ}
    {v cv : α} (hb : alookup bn l = none) (hp : alookup pn l = some cv) :
    alookup bn (aset pn v l) = none := by
  have hne : bn ≠ pn := fun he => by rw [he, hp] at hb; cases hb
  rw [alookup_aset_ne _ _ hne, hb]

theorem alookup_append_single_none {κ α : Type} [DecidableEq κ] {l : List (κ × α)}
    {bn pn : κ} {cv : α} (hb : alookup bn l = none) (hne : bn ≠ pn) :
    alookup bn (l ++ [(pn, cv)]) = none := by
  rw [alookup_append, hb]
  simp [alookup, hne]

theorem incCounter_ok {mc mc₂ : MetricsCollector} {n : GoStr} {ls : List GoStr}
    (h : IncCounter mc n ls = .ok mc₂) :
    ∃ cv, alookup (ensureMetricNamePrefix mc.serviceName n) mc.counters = some cv
      ∧ mc₂ = { mc with
                  counters := aset (ensureMetricNamePrefix mc.serviceName n)
                    { cv with series := seriesAdd cv.series ls 1 } mc.counters } := by
  simp only [IncCounter] at h
  split at h
  · exact absurd h (by simp)
  · rename_i cv hl
    split at h
    · simp only [Except.ok.injEq] at h
      exact ⟨cv, hl, h.symm⟩
    · exact absurd h (by simp)

theorem addCounter_ok {mc mc₂ : MetricsCollector} {n : GoStr} {v : ℚ} {ls : List GoStr}
    (h : AddCounter mc n v ls = .ok mc₂) :
    ∃ cv, alookup (ensureMetricNamePrefix mc.serviceName n) mc.counters = some cv
      ∧ mc₂ = { mc with
                  counters := aset (ensureMetricNamePrefix mc.serviceName n)
                    { cv with series := seriesAdd cv.series ls v } mc.counters } := by
  simp only [AddCounter] at h
  split at h
  · exact absurd h (by simp)
  · rename_i cv hl
    split at h
    · simp only [Except.ok.injEq] at h
      exact ⟨cv, hl, h.symm⟩
    · exact absurd h (by simp)

theorem setGauge_ok {mc mc₂ : MetricsCollector} {n : GoStr} {v : ℚ} {ls : List GoStr}
    (h : SetGauge mc n v ls = .ok mc₂) :
    ∃ gv, alookup (ensureMetricNamePrefix mc.serviceName n) mc.gauges = some gv
      ∧ mc₂ = { mc with
                  gauges := aset (ensureMetricNamePrefix mc.serviceName n)
                    { gv with series := seriesSet gv.series ls v } mc.gauges } := by
  simp only [SetGauge] at h
  split at h
  · exact absurd h (by simp)
  · rename_i gv hl
    split at h
    · simp only [Except.ok.injEq] at h
      exact ⟨gv, hl, h.symm⟩
    · exact absurd h (by simp)

theorem incGauge_ok {mc mc₂ : MetricsCollector} {n : GoStr} {ls : List GoStr}
    (h : IncGauge mc n ls = .ok mc₂) :
    ∃ gv, alookup (ensureMetricNamePrefix mc.serviceName n) mc.gauges = some gv
      ∧ mc₂ = { mc with
                  gauges := aset (ensureMetricNamePrefix mc.serviceName n)
                    { gv with series := seriesAdd gv.series ls 1 } mc.gauges } := by
  simp only [IncGauge] at h
  split at h
  · exact absurd h (by simp)
  · rename_i gv hl
    split at h
    · simp only [Except.ok.injEq] at h
      exact ⟨gv, hl, h.symm⟩
    · exact absurd h (by simp)

theorem decGauge_ok {mc mc₂ : MetricsCollector} {n : GoStr} {ls : List GoStr}
    (h : DecGauge mc n ls = .ok mc₂) :
    ∃ gv, alookup (ensureMetricNamePrefix mc.serviceName n) mc.gauges = some gv
      ∧ mc₂ = { mc with
                  gauges := aset (ensureMetricNamePrefix mc.serviceName n)
                    { gv with series := seriesAdd gv.series ls (-1) } mc.gauges } := by
  simp only [DecGauge] at h
  split at h
  · exact absurd h (by simp)
  · rename_i gv hl
    split at h
    · simp only [Except.ok.injEq] at h
      exact ⟨gv, hl, h.symm⟩
    · exact absurd h (by simp)

theorem addGauge_ok {mc mc₂ : MetricsCollector} {n : GoStr} {v : ℚ} {ls : List GoStr}
    (h : AddGauge mc n v ls = .ok mc₂) :
    ∃ gv, alookup (ensureMetricNamePrefix mc.serviceName n) mc.gauges = some gv
      ∧ mc₂ = { mc with
                  gauges := aset (ensureMetricNamePrefix mc.serviceName n)
                    { gv with series := seriesAdd gv.series ls v } mc.gauges } := by
  simp only [AddGauge] at h
  split at h
  · exact absurd h (by simp)
  · rename_i gv hl
    split at h
    · simp only [Except.ok.injEq] at h
      exact ⟨gv, hl, h.symm⟩
    · exact absurd h (by simp)

theorem observeHistogram_ok {mc mc₂ : MetricsCollector} {n : GoStr} {v : ℚ} {ls : List GoStr}
    (h : ObserveHistogram mc n v ls = .ok mc₂) :
    ∃ hv, alookup (ensureMetricNamePrefix mc.serviceName n) mc.histograms = some hv
      ∧ mc₂ = { mc with
                  histograms := aset (ensureMetricNamePrefix mc.serviceName n)
                    { hv with series := seriesObserve hv.series ls v } mc.histograms } := by
  simp only [ObserveHistogram] at h
  split at h
  · exact absurd h (by simp)
  · rename_i hv hl
    split at h
    · simp only [Except.ok.injEq] at h
      exact ⟨hv, hl, h.symm⟩
    · exact absurd h (by simp)

theorem observeSummary_ok {mc mc₂ : MetricsCollector} {n : GoStr} {v : ℚ} {ls : List GoStr}
    (h : ObserveSummary mc n v ls = .ok mc₂) :
    ∃ sv, alookup (ensureMetricNamePrefix mc.serviceName n) mc.summaries = some sv
      ∧ mc₂ = { mc with
                  summaries := aset (ensureMetricNamePrefix mc.serviceName n)
                    { sv with series := seriesObserve sv.series ls v } mc.summaries } := by
  simp only [ObserveSummary] at h
  split at h
  · exact absurd h (by simp)
  · rename_i sv hl
    split at h
    · simp only [Except.ok.injEq] at h
      exact ⟨sv, hl, h.symm⟩
    · exact absurd h (by simp)

theorem reachable_builtinApart {sn : GoStr} {mc : MetricsCollector}
    (h : Reachable sn mc) : BuiltinApart sn mc := by
  induction h with
  | new =>
    refine ⟨rfl, fun bn hb => hb, fun bn hb => ?_⟩
    simp [NewMetricsCollector, alookup]
  | regCounter hr hok ih =>
    obtain ⟨hl, hm, he⟩ := registerCounter_ok hok
    obtain ⟨hsn, hreg, hmaps⟩ := ih
    subst he
    refine ⟨hsn, fun bn hb => List.mem_append_left _ (hreg bn hb), fun bn hb => ?_⟩
    obtain ⟨h₁, h₂, h₃, h₄⟩ := hmaps bn hb
    exact ⟨alookup_append_single_none h₁ (fun he₂ => hm (he₂ ▸ hreg bn hb)), h₂, h₃, h₄⟩
  | regGauge hr hok ih =>
    obtain ⟨hl, hm, he⟩ := registerGauge_ok hok
    obtain ⟨hsn, hreg, hmaps⟩ := ih
    subst he
    refine ⟨hsn, fun bn hb => List.mem_append_left _ (hreg bn hb), fun bn hb => ?_⟩
    obtain ⟨h₁, h₂, h₃, h₄⟩ := hmaps bn hb
    exact ⟨h₁, alookup_append_single_none h₂ (fun he₂ => hm (he₂ ▸ hreg bn hb)), h₃, h₄⟩
  | regHistogram hr hok ih =>
    obtain ⟨hl, hm, he⟩ := registerHistogram_ok hok
    obtain ⟨hsn, hreg, hmaps⟩ := ih
    subst he
    refine ⟨hsn, fun bn hb => List.mem_append_left _ (hreg bn hb), fun bn hb => ?_⟩
    obtain ⟨h₁, h₂, h₃, h₄⟩ := hmaps bn hb
    exact ⟨h₁, h₂, alookup_append_single_none h₃ (fun he₂ => hm (he₂ ▸ hreg bn hb)), h₄⟩
  | regSummary hr hok ih =>
    obtain ⟨hl, hm, he⟩ := registerSummary_ok hok
    obtain ⟨hsn, hreg, hmaps⟩ := ih
    subst he
    refine ⟨hsn, fun bn hb => List.mem_append_left _ (hreg bn hb), fun bn hb => ?_⟩
    obtain ⟨h₁, h₂, h₃, h₄⟩ := hmaps bn hb
    exact ⟨h₁, h₂, h₃, alookup_append_single_none h₄ (fun he₂ => hm (he₂ ▸ hreg bn hb))⟩
  | incCounter hr hok ih =>
    obtain ⟨cv, hl, he⟩ := incCounter_ok hok
    obtain ⟨hsn, hreg, hmaps⟩ := ih
    subst he
    refine ⟨hsn, hreg, fun bn hb => ?_⟩
    obtain ⟨h₁, h₂, h₃, h₄⟩ := hmaps bn hb
    exact ⟨alookup_aset_none h₁ hl, h₂, h₃, h₄⟩
  | addCounter hr hok ih =>
    obtain ⟨cv, hl, he⟩ := addCounter_ok hok
    obtain ⟨hsn, hreg, hmaps⟩ := ih
    subst he
    refine ⟨hsn, hreg, fun bn hb => ?_⟩
    obtain ⟨h₁, h₂, h₃, h₄⟩ := hmaps bn hb
    exact ⟨alookup_aset_none h₁ hl, h₂, h₃, h₄⟩
  | setGauge hr hok ih =>
    obtain ⟨gv, hl, he⟩ := setGauge_ok hok
    obtain ⟨hsn, hreg, hmaps⟩ := ih
    subst he
    refine ⟨hsn, hreg, fun bn hb => ?_⟩
    obtain ⟨h₁, h₂, h₃, h₄⟩ := hmaps bn hb
    exact ⟨h₁, alookup_aset_none h₂ hl, h₃, h₄⟩
  | incGauge hr hok ih =>
    obtain ⟨gv, hl, he⟩ := incGauge_ok hok
    obtain ⟨hsn, hreg, hmaps⟩ := ih
    subst he
    refine ⟨hsn, hreg, fun bn hb => ?_⟩
    obtain ⟨h₁, h₂, h₃, h₄⟩ := hmaps bn hb
    exact ⟨h₁, alookup_aset_none h₂ hl, h₃, h₄⟩
  | decGauge hr hok ih =>
    obtain ⟨gv, hl, he⟩ := decGauge_ok hok
    obtain ⟨hsn, hreg, hmaps⟩ := ih
    subst he
    refine ⟨hsn, hreg, fun bn hb => ?_⟩
    obtain ⟨h₁, h₂, h₃, h₄⟩ := hmaps bn hb
    exact ⟨h₁, alookup_aset_none h₂ hl, h₃, h₄⟩
  | addGauge hr hok ih =>
    obtain ⟨gv, hl, he⟩ := addGauge_ok hok
    obtain ⟨hsn, hreg, hmaps⟩ := ih
    subst he
    refine ⟨hsn, hreg, fun bn hb => ?_⟩
    obtain ⟨h₁, h₂, h₃, h₄⟩ := hmaps bn hb
    exact ⟨h₁, alookup_aset_none h₂ hl, h₃, h₄⟩
  | observeHistogram hr hok ih =>
    obtain ⟨hv, hl, he⟩ := observeHistogram_ok hok
    obtain ⟨hsn, hreg, hmaps⟩ := ih
    subst he
    refine ⟨hsn, hreg, fun bn hb => ?_⟩
    obtain ⟨h₁, h₂, h₃, h₄⟩ := hmaps bn hb
    exact ⟨h₁, h₂, alookup_aset_none h₃ hl, h₄⟩
  | observeSummary hr hok ih =>
    obtain ⟨sv, hl, he⟩ := observeSummary_ok hok
    obtain ⟨hsn, hreg, hmaps⟩ := ih
    subst he
    refine ⟨hsn, hreg, fun bn hb => ?_⟩
    obtain ⟨h₁, h₂, h₃, h₄⟩ := hmaps bn hb
    exact ⟨h₁, h₂, h₃, alookup_aset_none h₄ hl⟩

/-- C10, claim theorem.  In every collector state reachable through the
public metric API, a name whose prefixed form equals a built-in HTTP
metric name (this covers both the bare and the already-prefixed spelling)
is rejected by every name-based mutation with a `not found` error, and by
every registration with a registration-conflict error — the built-in
metrics live outside the custom maps those operations consult, and the
private registry already holds their names.  An error result carries no
successor state in the `Except` embedding, matching the Go code's early
returns: no metric is changed. -/
theorem c10_builtins_unreachable_by_name
    (sn n : GoStr) (mc : MetricsCollector) (cfg : MetricConfig) (ls : List GoStr) (v : ℚ)
    (hr : Reachable sn mc)
    (hb : ensureMetricNamePrefix sn n ∈ builtinNames sn) :
    IncCounter mc n ls = .error (.notFound .counter (ensureMetricNamePrefix sn n))
    ∧ AddCounter mc n v ls = .error (.notFound .counter (ensureMetricNamePrefix sn n))
    ∧ SetGauge mc n v ls = .error (.notFound .gauge (ensureMetricNamePrefix sn n))
    ∧ IncGauge mc n ls = .error (.notFound .gauge (ensureMetricNamePrefix sn n))
    ∧ DecGauge mc n ls = .error (.notFound .gauge (ensureMetricNamePrefix sn n))
    ∧ AddGauge mc n v ls = .error (.notFound .gauge (ensureMetricNamePrefix sn n))
    ∧ ObserveHistogram mc n v ls =
        .error (.notFound .histogram (ensureMetricNamePrefix sn n))
    ∧ ObserveSummary mc n v ls = .error (.notFound .summary (ensureMetricNamePrefix sn n))
    ∧ RegisterCounter mc { cfg with Name := n } =
        .error (.registerConflict .counter (ensureMetricNamePrefix sn n))
    ∧ RegisterGauge mc { cfg with Name := n } =
        .error (.registerConflict .gauge (ensureMetricNamePrefix sn n))
    ∧ RegisterHistogram mc { cfg with Name := n } =
        .error (.registerConflict .histogram (ensureMetricNamePrefix sn n))
    ∧ RegisterSummary mc { cfg with Name := n } =
        .error (.registerConflict .summary (ensureMetricNamePrefix sn n)) := by
  obtain ⟨hsn, hreg, hmaps⟩ := reachable_builtinApart hr
  subst hsn
  obtain ⟨h₁, h₂, h₃, h₄⟩ := hmaps _ hb
  have hin : ensureMetricNamePrefix mc.serviceName n ∈ mc.registryNames := hreg _ hb
  refine ⟨?_, ?_, ?_, ?_, ?_, ?_, ?_, ?_, ?_, ?_, ?_, ?_⟩ <;>
    simp [IncCounter, AddCounter, SetGauge, IncGauge, DecGauge, AddGauge,
      ObserveHistogram, ObserveSummary, RegisterCounter, RegisterGauge,
      RegisterHistogram, RegisterSummary, registryRegister, h₁, h₂, h₃, h₄, hin]

/-- C10, witness: on a freshly constructed collector for the service
`test`, the bare built-in counter name is rejected by `IncCounter`. -/
theorem c10_witness :
    IncCounter (NewMetricsCollector (("test").data)) bareRequestsTotal [] =
      .error (.notFound .counter
        (ensureMetricNamePrefix (("test").data) bareRequestsTotal))
    ∧ RegisterCounter (NewMetricsCollector (("test").data))
        { sampleCfg with Name := bareRequestsTotal } =
      .error (.registerConflict .counter
        (ensureMetricNamePrefix (("test").data) bareRequestsTotal)) :=
  have h := c10_builtins_unreachable_by_name (("test").data) bareRequestsTotal
    (NewMetricsCollector (("test").data)) sampleCfg [] 1 Reachable.new (by decide)
  ⟨h.1, h.2.2.2.2.2.2.2.2.1⟩

/-- C9, claim theorem.  `applyMiddleware` wraps the handler with the
middleware slice in reverse index order, so the first-registered link
ends outermost — it receives the request before, and the response after,
every later link; and the default chain built by `New` composes, from the
outside in: metrics capture, logger-context injection, panic recovery,
request logging (and, innermost, the health-checker context injection
that `New` appends when the health checker exists). -/
theorem c9_middleware_wraps_in_reverse_order :
    (∀ (h : Handler) (m : Middleware) (ms : List Middleware),
        applyMiddleware h (m :: ms) = m (applyMiddleware h ms))
    ∧ (∀ h : Handler,
        applyMiddleware h defaultMiddlewares =
          MetricsMiddleware (LoggerMiddleware (RecoveryMiddleware
            (RequestLoggingMiddleware (HealthCheckerMiddleware h))))) :=
  ⟨fun _ _ _ => rfl, fun _ => rfl⟩

theorem metricsMiddleware_on_panicking
    (next : Handler) (r : Request) (w : RespWriter) (wo : World)
    (res : HResult)
    (hnext : next { r with ctx := { r.ctx with hasMetrics := true } }
        { w with captured := 200 }
        { wo with mc := { wo.mc with
            httpRequestsInFlight := wo.mc.httpRequestsInFlight + 1 } } = res)
    (hp : res.panicked = false) :
    MetricsMiddleware next r w wo =
      { w := res.w
        world :=
          { res.world with mc :=
              let mc := { res.world.mc with
                            httpRequestsInFlight := res.world.mc.httpRequestsInFlight - 1 }
              let mc₂ := { mc with
                             httpRequestsTotal := { mc.httpRequestsTotal with
                               series := seriesAdd mc.httpRequestsTotal.series
                                 [r.method, r.path, itoa res.w.captured] 1 } }
              { mc₂ with
                  httpRequestDuration := { mc₂.httpRequestDuration with
                    series := seriesObserve mc₂.httpRequestDuration.series
                      [r.method, r.path, itoa res.w.captured] wo.elapsedSeconds } } }
        panicked := false } := by
  simp only [MetricsMiddleware, hnext, hp, Bool.false_eq_true, if_false]

/-- C2, claim theorem.  A request through the default chain whose user
handler panics (without having written to the response): the composed
handler returns without a panic, the client receives status 500, the
in-flight gauge is back at its pre-request value, and the request counter
and the duration histogram each record exactly one entry for the request,
labelled with the post-recovery status code 500 — every other series of
those two metrics is untouched. -/
theorem c2_panic_containment_and_metrics
    (r : Request) (w : RespWriter) (wo : World) (h : Handler)
    (hpanic : ∀ r₂ w₂ wo₂, h r₂ w₂ wo₂ = { w := w₂, world := wo₂, panicked := true })
    (hw : w.wireStatus = none) :
    (applyMiddleware h defaultMiddlewares r w wo).panicked = false
    ∧ (applyMiddleware h defaultMiddlewares r w wo).w.wireStatus = some 500
    ∧ (applyMiddleware h defaultMiddlewares r w wo).world.mc.httpRequestsInFlight =
        wo.mc.httpRequestsInFlight
    ∧ counterValue (applyMiddleware h defaultMiddlewares r w wo).world.mc.httpRequestsTotal
          [r.method, r.path, itoa 500] =
        counterValue wo.mc.httpRequestsTotal [r.method, r.path, itoa 500] + 1
    ∧ (∀ ls₂, ls₂ ≠ [r.method, r.path, itoa 500] →
        alookup ls₂
            (applyMiddleware h defaultMiddlewares r w wo).world.mc.httpRequestsTotal.series =
          alookup ls₂ wo.mc.httpRequestsTotal.series)
    ∧ histObsCount (applyMiddleware h defaultMiddlewares r w wo).world.mc.httpRequestDuration
          [r.method, r.path, itoa 500] =
        histObsCount wo.mc.httpRequestDuration [r.method, r.path, itoa 500] + 1
    ∧ (∀ ls₂, ls₂ ≠ [r.method, r.path, itoa 500] →
        alookup ls₂
            (applyMiddleware h defaultMiddlewares r w wo).world.mc.httpRequestDuration.series =
          alookup ls₂ wo.mc.httpRequestDuration.series) := by
  have hinner :
      (LoggerMiddleware (RecoveryMiddleware (RequestLoggingMiddleware
          (HealthCheckerMiddleware h))))
        { r with ctx := { r.ctx with hasMetrics := true } }
        { w with captured := 200 }
        { wo with mc := { wo.mc with
            httpRequestsInFlight := wo.mc.httpRequestsInFlight + 1 } } =
      { w := httpError { w with captured := 200 } (("Internal Server Error").data) 500
        world := { wo with
                     mc := { wo.mc with
                               httpRequestsInFlight := wo.mc.httpRequestsInFlight + 1 }
                     logs := wo.logs ++
                       [("incoming request ").data ++ r.method ++ r.path,
                        ("panic recovered ").data ++ r.method ++ r.path] }
        panicked := false } := by
    simp [LoggerMiddleware, RecoveryMiddleware, RequestLoggingMiddleware,
      HealthCheckerMiddleware, hpanic]
  have hdef : applyMiddleware h defaultMiddlewares =
      MetricsMiddleware (LoggerMiddleware (RecoveryMiddleware (RequestLoggingMiddleware
        (HealthCheckerMiddleware h)))) := rfl
  have hall := metricsMiddleware_on_panicking _ r w wo _ hinner rfl
  rw [hdef, hall]
  have hcap : (httpError { w with captured := 200 }
      (("Internal Server Error").data) 500).captured = 500 := by
    simp [httpError, writeHeader, writeBody, hw]
  refine ⟨rfl, ?_, ?_, ?_, ?_, ?_, ?_⟩
  · simp [httpError, writeHeader, writeBody, hw]
  · simp
  · simp [hcap, counterValue, seriesAdd_value]
  · intro ls₂ hne
    simp [hcap, seriesAdd_other _ _ _ _ hne]
  · simp [hcap, histObsCount, seriesObserve_count]
  · intro ls₂ hne
    simp [hcap, seriesObserve_other _ _ _ _ hne]

/-- C2, witness: a GET request to `/hello` through the default chain with
the immediately-panicking handler on a fresh collector. -/
theorem c2_witness :
    (applyMiddleware panickingHandler defaultMiddlewares sampleRequest emptyWriter
        sampleWorld).panicked = false
    ∧ (applyMiddleware panickingHandler defaultMiddlewares sampleRequest emptyWriter
        sampleWorld).w.wireStatus = some 500
    ∧ (applyMiddleware panickingHandler defaultMiddlewares sampleRequest emptyWriter
        sampleWorld).world.mc.httpRequestsInFlight = sampleWorld.mc.httpRequestsInFlight
    ∧ counterValue (applyMiddleware panickingHandler defaultMiddlewares sampleRequest
          emptyWriter sampleWorld).world.mc.httpRequestsTotal
        [sampleRequest.method, sampleRequest.path, itoa 500] =
      counterValue sampleWorld.mc.httpRequestsTotal
        [sampleRequest.method, sampleRequest.path, itoa 500] + 1 :=
  have hc := c2_panic_containment_and_metrics sampleRequest emptyWriter sampleWorld
    panickingHandler (fun _ _ _ => rfl) rfl
  ⟨hc.1, hc.2.1, hc.2.2.1, hc.2.2.2.1⟩

/-- C6, claim theorem.  `gracefulShutdown` runs every registered hook, in
registration (FIFO) order — the run list is exactly the hook list — hook
failures are only collected (they never truncate the run list), the
returned result is the same as with no hooks at all (so a failing hook
cannot fail or block the shutdown call, which, being a total function
here as in the straight-line Go loop, always returns), and
`AddShutdownHook` appends, making registration order the list order. -/
theorem c6_hooks_fifo_and_error_tolerant (st : ServiceState) (h : Hook) :
    (gracefulShutdown st).hooksRun = st.hooks.map Hook.id
    ∧ (gracefulShutdown st).hookFailures = (st.hooks.filter Hook.fails).map Hook.id
    ∧ (gracefulShutdown st).result = (gracefulShutdown { st with hooks := [] }).result
    ∧ (AddShutdownHook st h).hooks = st.hooks ++ [h] := by
  simp [gracefulShutdown, runHooks, AddShutdownHook]

/-- C7, claim theorem.  With both listeners present, `gracefulShutdown`
attempts the shutdown of each one — the primary first, the metrics
listener second, each regardless of the other's result — and returns the
first shutdown error encountered, or success when both succeed. -/
theorem c7_both_listeners_attempted_first_error_returned
    (st : ServiceState) (s₁ s₂ : ServerH)
    (h₁ : st.server = some s₁) (h₂ : st.metricsServer = some s₂) :
    (gracefulShutdown st).attempted = [.mainListener, .metricsListener]
    ∧ (gracefulShutdown st).result =
        (match s₁.shutdownErr with
         | some e => some e
         | none => s₂.shutdownErr) := by
  unfold gracefulShutdown
  rw [h₁, h₂]
  cases he₁ : s₁.shutdownErr <;> cases he₂ : s₂.shutdownErr <;> simp [he₁, he₂]

/-- C7, witness: both listener shutdowns fail; both are attempted and the
primary listener's error is returned. -/
theorem c7_witness :
    (gracefulShutdown failingShutdownState).attempted = [.mainListener, .metricsListener]
    ∧ (gracefulShutdown failingShutdownState).result =
        some (("context deadline exceeded").data) :=
  c7_both_listeners_attempted_first_error_returned failingShutdownState
    { shutdownErr := some (("context deadline exceeded").data) }
    { shutdownErr := some (("use of closed network connection").data) } rfl rfl

/-- C1, counterexample.  When `Start` unblocks because the primary
listener failed with a bind error, it returns that error immediately:
`gracefulShutdown` never runs, so the metrics listener — still serving —
is not stopped before the return.  This refutes the claim that both
listeners have been stopped whenever `Start` returns. -/
theorem c1_counterexample :
    ¬ bothListenersStopped sampleLifecycle
        (Start sampleLifecycle (.mainServerError bindError)) := by
  intro ⟨t, ht, _⟩
  simp [Start] at ht

/-- C1, amended claim theorem.  When the trigger is a termination signal,
`Start` runs `gracefulShutdown` before returning, which attempts to stop
every listener that exists (and its result is returned); when the trigger
is a listener error, `Start` returns that error at once and performs no
shutdown of the other listener. -/
theorem c1_signal_stops_both_listener_error_returns_early
    (st : ServiceState) (e : GoStr) :
    bothListenersStopped st (Start st .signal)
    ∧ (Start st .signal).result = (gracefulShutdown st).result
    ∧ Start st (.mainServerError e) = { result := some e, shutdown := none }
    ∧ Start st (.metricsServerError e) = { result := some e, shutdown := none } := by
  refine ⟨⟨gracefulShutdown st, rfl, ?_, ?_⟩, rfl, rfl, rfl⟩
  · intro hs
    cases hmain : st.server with
    | none => rw [hmain] at hs; cases hs
    | some s => simp [gracefulShutdown, hmain]
  · intro hs
    cases hmet : st.metricsServer with
    | none => rw [hmet] at hs; cases hs
    | some s => cases hmain : st.server <;> simp [gracefulShutdown, hmain, hmet]

theorem getAvailability_ne_ok (s : HStatus) (b : Bool) :
    getAvailability s b ≠ .statusOK := by
  unfold getAvailability
  split <;> simp

theorem foldl_status_ok_iff (l : List HCheck) (s : HStatus) :
    l.foldl (fun s c => if c.ok then s else getAvailability s c.skipOnErr) s = .statusOK
      ↔ s = .statusOK ∧ ∀ c ∈ l, c.ok = true := by
  induction l generalizing s with
  | nil => simp
  | cons c l ih =>
    by_cases hc : c.ok = true
    · simp [List.foldl_cons, hc, ih, and_assoc]
    · have : (if c.ok then s else getAvailability s c.skipOnErr) =
          getAvailability s c.skipOnErr := by simp [hc]
      simp only [List.foldl_cons, this, ih]
      simp [getAvailability_ne_ok, hc]

theorem measureStatus_ok_iff (checks : List HCheck) :
    measureStatus checks = .statusOK ↔ ∀ c ∈ checks, c.ok = true := by
  unfold measureStatus
  rw [foldl_status_ok_iff]
  simp

/-- C4, counterexample.  A checker holding one critical probe that passes
and one advisory (`SkipOnErr`) probe that fails: every critical probe
succeeds, yet `IsHealthy` and `IsReady` are false — hellofresh
health-go's `getAvailability` degrades the measured status to "Partially
Available" on an advisory failure, and the wrappers compare the status
against `StatusOK`.  This refutes the claim that advisory failures leave
`IsHealthy`/`IsReady` reporting healthy/ready. -/
theorem c4_counterexample :
    (∀ c ∈ mixedChecker.checker.checks, c.skipOnErr = false → c.ok = true)
    ∧ (∃ c ∈ mixedChecker.checker.checks, c.skipOnErr = true ∧ c.ok = false)
    ∧ IsHealthy mixedChecker = false ∧ IsReady mixedChecker = false := by
  decide

/-- C4, amended claim theorem.  `IsHealthy` (and `IsReady`, which is the
same computation) reports healthy exactly when every registered probe —
critical or advisory — succeeds within its timeout; any failing probe,
advisory ones included, makes both report unhealthy/not ready, and in
particular any critical-probe failure does. -/
theorem c4_health_iff_all_probes_pass (hc : HealthChecker) :
    (IsHealthy hc = true ↔ ∀ c ∈ hc.checker.checks, c.ok = true)
    ∧ IsReady hc = IsHealthy hc
    ∧ (∀ c ∈ hc.checker.checks, c.ok = false → IsHealthy hc = false ∧ IsReady hc = false) := by
  refine ⟨?_, rfl, ?_⟩
  · simp [IsHealthy, measureStatus_ok_iff]
  · intro c hm hfail
    have hnot : ¬ ∀ c₂ ∈ hc.checker.checks, c₂.ok = true :=
      fun hall => by rw [hall c hm] at hfail; cases hfail
    have : IsHealthy hc = false := by
      cases hh : IsHealthy hc with
      | false => rfl
      | true => exact absurd (by simpa [IsHealthy, measureStatus_ok_iff] using hh) hnot
    exact ⟨this, this⟩

/-- C5, claim theorem (spec-modelled `HealthChecker.Register`, see its
definition).  Registering a probe whose (nonempty) name is already
carried by a registered probe returns the library's already-registered
error to the caller; no `.ok` state exists, so nothing is overwritten and
— the model being a total function — nothing panics. -/
theorem c5_duplicate_probe_registration_rejected
    (hc : HealthChecker) (c c₂ : HCheck)
    (hne : c.name ≠ [])
    (hmem : c₂ ∈ hc.checker.checks) (hname : c.name = c₂.name) :
    HealthCheckerRegister hc c =
      .error ((("health check is already registered: ").data) ++ c.name)
    ∧ ∀ hc₂, HealthCheckerRegister hc c ≠ .ok hc₂ := by
  have hmm : c.name ∈ hc.checker.checks.map HCheck.name :=
    hname ▸ List.mem_map_of_mem HCheck.name hmem
  constructor
  · simp [HealthCheckerRegister, healthRegister, hne, hmm]
  · intro hc₂
    simp [HealthCheckerRegister, healthRegister, hne, hmm]

/-- C5, witness: re-registering the probe named `database`. -/
theorem c5_witness :
    HealthCheckerRegister oneProbeChecker dupProbe =
      .error ((("health check is already registered: ").data) ++ dupProbe.name)
    ∧ ∀ hc₂, HealthCheckerRegister oneProbeChecker dupProbe ≠ .ok hc₂ :=
  c5_duplicate_probe_registration_rejected oneProbeChecker dupProbe dupProbe
    (by decide) (by decide) rfl

end ServiceSpec
